import Mathlib

/-!
Shallow embedding of the geometry, raster and entrypoint layers of the
AgPipeline/agpypeline repository, together with theorems settling the
specification claims about them.

Conventions used throughout:

* OGR geometries are modelled as axis-aligned rational boxes (`Box`): every
  polygon this code base builds is a rectangular bounding ring, and the only
  geometric operations invoked on them (`Intersection`, `Area`, `GetEnvelope`)
  restrict to boxes.  `Area` is the clamped product of side lengths, so a
  degenerate or empty intersection has area `0`, matching OGR returning an
  empty geometry whose `Area()` is `0.0`.
* GeoJSON inputs are modelled by `GeoJsonDoc`: either unparseable (`invalid`,
  for which `ogr.CreateGeometryFromJson` returns `None`) or a polygon.
* Python floats that can be NaN are modelled by `PFloat`; `PFloat.pyEq` is
  IEEE equality, under which NaN compares unequal to everything, including
  itself.
* Python exceptions are modelled with `Except String`; a caught exception
  corresponds to matching on the `error` branch.
* File-system and external-process effects (gdal_translate, pdal) are
  abstracted by oracle parameters: for example the non-zero pixel count of the
  clipped raster window is an oracle `BoundsTuple → Nat`.
-/

/-- Model of an OGR polygon geometry: an axis-aligned box with rational
coordinates. -/
structure Box where
  minX : ℚ
  minY : ℚ
  maxX : ℚ
  maxY : ℚ
deriving DecidableEq, Repr

/-- OGR `Geometry.Area()`: the clamped product of the side lengths.  A box
whose max is at or below its min in either axis is empty and has area 0. -/
def Box.Area (b : Box) : ℚ :=
  max (b.maxX - b.minX) 0 * max (b.maxY - b.minY) 0

/-- OGR `Geometry.Intersection()`: the intersection of two boxes (possibly
empty, in which case its `Area` is 0). -/
def Box.Intersection (a b : Box) : Box :=
  { minX := max a.minX b.minX
    minY := max a.minY b.minY
    maxX := min a.maxX b.maxX
    maxY := min a.maxY b.maxY }

/-- A GeoJSON boundary argument: either text that does not parse to a valid
geometry, or a polygon. -/
inductive GeoJsonDoc where
  | invalid : GeoJsonDoc
  | poly : Box → GeoJsonDoc
deriving DecidableEq, Repr

/-- Model of `ogr.CreateGeometryFromJson`: `None` (here `Option.none`) when the
input does not parse to a valid geometry. -/
def CreateGeometryFromJson : GeoJsonDoc → Option Box
  | GeoJsonDoc.invalid => Option.none
  | GeoJsonDoc.poly b => some b

namespace Geometries

/-- Embedding of `geometries.calculate_overlap_percent` (geometries.py lines
28-51; the copy in geoimage.py lines 34-57 is identical).  Both inputs are
parsed; if both parse, the overlap is `intersection.Area() / check_poly.Area()`.
If either fails to parse, the `if check_poly and bbox_poly` guard falls
through and `0.0` is returned.  Rational division by zero is `0` in Lean,
which coincides with the source, where a `ZeroDivisionError` is caught by the
`except` clause and `0.0` is returned. -/
def calculate_overlap_percent (check_bounds bounding_box : GeoJsonDoc) : ℚ :=
  match CreateGeometryFromJson check_bounds, CreateGeometryFromJson bounding_box with
  | some check_poly, some bbox_poly =>
      let intersection := bbox_poly.Intersection check_poly
      intersection.Area / check_poly.Area
  | _, _ => 0

/-- Embedding of `geometries.geometry_to_tuples` (geometries.py lines 98-107):
`GetEnvelope` of a box is the box itself, returned in
(min Y, max Y, min X, max X) order. -/
def geometry_to_tuples (geom : Box) : ℚ × ℚ × ℚ × ℚ :=
  (geom.minY, geom.maxY, geom.minX, geom.maxX)

end Geometries

/-- Bounds tuple in (min Y, max Y, min X, max X) order, as produced by
`geometry_to_tuples` / `geojson_to_tuples` and consumed by `clip_raster`. -/
abbrev BoundsTuple := ℚ × ℚ × ℚ × ℚ

namespace Geoimage

/-- Rendering of the `-projwin` coordinate string built at geoimage.py line 78:
`"%s %s %s %s" % (bounds[2], bounds[1], bounds[3], bounds[0])`, that is
min X, max Y, max X, min Y. -/
def coords_string (bounds : BoundsTuple) : String :=
  toString bounds.2.2.1 ++ " " ++ toString bounds.2.1 ++ " " ++
    toString bounds.2.2.2 ++ " " ++ toString bounds.1

/-- The gdal_translate command string built at geoimage.py lines 79-82.  Note
the branches: the `-co COMPRESS=LZW` creation option is emitted on the
`else` (i.e. `compress == False`) branch. -/
def clip_raster_cmd (compress : Bool) (coords rast_path out_path : String) : String :=
  if compress then
    "gdal_translate -projwin " ++ (coords ++ (" \"" ++ (rast_path ++ ("\" \"" ++ (out_path ++ "\"")))))
  else
    "gdal_translate -co COMPRESS=LZW -projwin " ++ (coords ++ (" \"" ++ (rast_path ++ ("\" \"" ++ (out_path ++ "\"")))))

/-- Observable outcome of `clip_raster`: the shell command issued, the return
value (`some` non-zero pixel count, or `None`), and whether the output file
still exists on disk when the function returns. -/
structure ClipRasterOut where
  cmd : String
  result : Option Nat
  out_file_kept : Bool
deriving DecidableEq, Repr

/-- Embedding of `geoimage.clip_raster` (geoimage.py lines 60-92).  The
gdal_translate invocation and the numpy read of its output are abstracted by
the oracle `raster`, giving the number of non-zero pixels of the source
raster clipped to the projwin bounds.  `out_path = Option.none` models the
Python default `out_path=None`, replaced by `"temp.tif"`.  After the
subprocess call the output file exists; it is removed (`out_file_kept =
false`) when the path is the temporary default, and also removed before
returning `None` when the clipped window has no non-zero pixel. -/
def clip_raster (raster : BoundsTuple → Nat) (rast_path : String) (bounds : BoundsTuple)
    (out_path : Option String) (compress : Bool) : ClipRasterOut :=
  let path := match out_path with
    | Option.none => "temp.tif"
    | some p => p
  let cmd := clip_raster_cmd compress (coords_string bounds) rast_path path
  let out_px := raster bounds
  if 0 < out_px then
    { cmd := cmd, result := some out_px, out_file_kept := path != "temp.tif" }
  else
    { cmd := cmd, result := Option.none, out_file_kept := false }

/-- Embedding of `geoimage.clip_raster_intersection` (geoimage.py lines
95-138).  Both boundary arguments are parsed; if either comes back `None` a
`RuntimeError` is raised (the final `except` clause re-raises it).  An empty
or zero-area intersection returns `None`.  Otherwise the intersection's
envelope is converted to tuples and `clip_raster` is called with
`compress=True`; wrapping the intersection into a multipolygon (lines
126-130) does not change its envelope, so the box itself is passed on. -/
def clip_raster_intersection (raster : BoundsTuple → Nat) (file_path : String)
    (file_bounds plot_bounds : GeoJsonDoc) (out_file : String) :
    Except String (Option Nat) :=
  match CreateGeometryFromJson file_bounds, CreateGeometryFromJson plot_bounds with
  | some file_poly, some plot_poly =>
      let intersection := file_poly.Intersection plot_poly
      if intersection.Area = 0 then Except.ok Option.none
      else
        Except.ok (clip_raster raster file_path
          (Geometries.geometry_to_tuples intersection) (some out_file) true).result
  | _, _ => Except.error "One or more invalid polygons specified when clipping raster"

end Geoimage

/-- Model of an `osr.SpatialReference`: identified by its SRID; `IsSame`
compares the identifiers. -/
structure SpatialRef where
  srid : Nat
deriving DecidableEq, Repr

/-- Model of `osr.SpatialReference.IsSame`. -/
def SpatialRef.isSame (a b : SpatialRef) : Bool := a.srid == b.srid

/-- Model of an `ogr.Geometry` as handled by `convert_geometry`: an optional
spatial reference plus an abstract shape identifier (the coordinates are
irrelevant to the claims about `convert_geometry`). -/
structure OgrGeometry where
  sr : Option SpatialRef
  shape : Nat
deriving DecidableEq, Repr

/-- Abstraction of the GDAL/OSR library behaviour that `convert_geometry`
depends on: the GDAL major-version switch, the outcome of
`osr.CreateCoordinateTransformation` (a transform handle or an exception),
the outcome of `ogr.Geometry.Transform` on a shape (a new shape or an
exception), and whether `Clone` returns a geometry. -/
structure GdalEnv where
  gdal3 : Bool
  createCoordTransform : SpatialRef → SpatialRef → Except String Nat
  applyTransform : Nat → Nat → Except String Nat
  cloneSucceeds : Bool

namespace Geometries

/-- Body of the `try` block of `geometries.convert_geometry` (geometries.py
lines 68-78).  With GDAL 3 the source calls
`geom_sr.SetAxisMappingStrategy(...)` before checking `geom_sr`, so a
geometry without a spatial reference raises an `AttributeError` on `None`
there; with GDAL 2 (and in the geoimage.py copy of `convert_geometry`, lines
141-166, which has no such call) control falls through the `if geom_sr`
guard.  Either way an exception or a fall-through leaves the original
geometry as the result.  A successful `Transform` assigns the target spatial
reference to the clone. -/
def convert_attempt (env : GdalEnv) (g : OgrGeometry) (nsr : SpatialRef) :
    Except String OgrGeometry :=
  match g.sr with
  | Option.none =>
      if env.gdal3 then
        Except.error "AttributeError: NoneType object has no attribute SetAxisMappingStrategy"
      else Except.ok g
  | some geom_sr =>
      if nsr.isSame geom_sr then Except.ok g
      else
        match env.createCoordTransform geom_sr nsr with
        | Except.error e => Except.error e
        | Except.ok handle =>
            if env.cloneSucceeds then
              match env.applyTransform handle g.shape with
              | Except.error e => Except.error e
              | Except.ok s2 => Except.ok { sr := some nsr, shape := s2 }
            else Except.ok g

/-- Embedding of `geometries.convert_geometry` (geometries.py lines 54-83).
If the target spatial reference or the geometry is `None` the geometry is
returned at once; otherwise the `try` block runs and any exception is caught
(a warning is logged) and the original geometry is returned. -/
def convert_geometry (env : GdalEnv) (geometry : Option OgrGeometry)
    (new_spatialreference : Option SpatialRef) : Option OgrGeometry :=
  match new_spatialreference, geometry with
  | Option.none, _ => geometry
  | _, Option.none => geometry
  | some nsr, some g =>
      match convert_attempt env g nsr with
      | Except.ok g2 => some g2
      | Except.error _ => some g

/-- Model of the polygon built by `geometries.polygon_from_ring`: a linear
ring (list of rational points) plus an optionally assigned spatial-reference
EPSG code. -/
structure GeoPolygon where
  ring : List (ℚ × ℚ)
  sr : Option Nat
deriving DecidableEq, Repr

/-- Embedding of `geometries.polygon_from_ring` (geometries.py lines
195-215).  The polygon always receives the ring (`AddGeometry`); if an EPSG
code is given, it is imported (`importable` abstracts
`ref_sys.ImportFromEPSG(int(epsg)) == ogr.OGRERR_NONE`) and assigned, and if
the import fails `None` is returned. -/
def polygon_from_ring (ring : List (ℚ × ℚ)) (epsg : Option Nat)
    (importable : Nat → Bool) : Option GeoPolygon :=
  let poly : GeoPolygon := { ring := ring, sr := Option.none }
  match epsg with
  | Option.none => some poly
  | some e =>
      if importable e then some { poly with sr := some e }
      else Option.none

/-- The GeoJSON dictionary produced by `geometries.geometry_to_geojson`: the
geometry plus an optional `crs` member with type (`AUTHORITY` name) and code
fields. -/
structure QGeoJson where
  ring : List (ℚ × ℚ)
  crs_type : Option String
  crs_code : Option String
deriving DecidableEq, Repr

/-- Python truthiness of an optional string argument (`None` and the empty
string are falsy). -/
def strTruthy : Option String → Bool
  | Option.none => false
  | some s => s != ""

/-- Embedding of `geometries.geometry_to_geojson` (geometries.py lines
110-137).  A polygon with an assigned EPSG spatial reference exports a `crs`
of type `EPSG` with the code as a string; without one, the alternate
coordinate type and code are used only when both are truthy, else no `crs`
member is emitted. -/
def geometry_to_geojson (geom : GeoPolygon) (alt_coord_type alt_coord_code : Option String) :
    QGeoJson :=
  match geom.sr with
  | some code => { ring := geom.ring, crs_type := some "EPSG", crs_code := some (toString code) }
  | Option.none =>
      if strTruthy alt_coord_type && strTruthy alt_coord_code then
        { ring := geom.ring, crs_type := alt_coord_type, crs_code := alt_coord_code }
      else { ring := geom.ring, crs_type := Option.none, crs_code := Option.none }

end Geometries

/-- A Python float that may be NaN (rationals model all non-NaN values that
arise here). -/
inductive PFloat where
  | nan : PFloat
  | val : ℚ → PFloat
deriving DecidableEq, Repr

/-- Python `==` on floats follows IEEE-754: NaN is unequal to everything,
including NaN itself. -/
def PFloat.pyEq : PFloat → PFloat → Bool
  | PFloat.nan, _ => false
  | _, PFloat.nan => false
  | PFloat.val a, PFloat.val b => a == b

/-- The list returned by `geoimage.image_get_geobounds`, in
[min_y, max_y, min_x, max_x] order. -/
structure GeoBounds where
  minY : PFloat
  maxY : PFloat
  minX : PFloat
  maxX : PFloat
deriving DecidableEq, Repr

/-- The data `gdal.Open` exposes for a readable raster: the geotransform
entries used at geoimage.py lines 457-460 and the raster dimensions. -/
structure RasterInfo where
  ulx : ℚ
  xres : ℚ
  uly : ℚ
  yres : ℚ
  xsize : ℕ
  ysize : ℕ
deriving DecidableEq, Repr

namespace Geoimage

/-- Embedding of `geoimage.image_get_geobounds` (geoimage.py lines 445-473).
A file that cannot be opened as a raster (`Option.none`) makes the `try`
block raise; the exception is caught and the `[nan, nan, nan, nan]` sentinel
is returned.  Otherwise the corner coordinates are computed from the
geotransform. -/
def image_get_geobounds (src : Option RasterInfo) : GeoBounds :=
  match src with
  | Option.none => { minY := PFloat.nan, maxY := PFloat.nan, minX := PFloat.nan, maxX := PFloat.nan }
  | some r =>
      let lrx := r.ulx + r.xsize * r.xres
      let lry := r.uly + r.ysize * r.yres
      { minY := PFloat.val (min r.uly lry), maxY := PFloat.val (max r.uly lry)
        minX := PFloat.val (min r.ulx lrx), maxX := PFloat.val (max r.ulx lrx) }

/-- The closed corner ring built by `get_image_bounds_json` at geoimage.py
lines 305-310: upper left, upper right, lower right, lower left, closing
point. -/
def image_bounds_ring (b : GeoBounds) : List (PFloat × PFloat) :=
  [(b.minX, b.maxY), (b.maxX, b.maxY), (b.maxX, b.minY), (b.minX, b.minY), (b.minX, b.maxY)]

/-- The GeoJSON produced by `get_image_bounds_json` via the geoimage.py copy
of `geometry_to_geojson`: ring points (which may be NaN) plus the `crs`
authority and code of the assigned spatial reference. -/
structure ImageGeoJson where
  ring : List (PFloat × PFloat)
  crs_type : Option String
  crs_code : Option String
deriving DecidableEq, Repr

/-- Embedding of `geoimage.get_image_bounds_json` (geoimage.py lines
276-321).  The file is abstracted into what the library calls return on it:
`src` (what `gdal.Open` exposes, driving `image_get_geobounds`), `file_epsg`
(the result of `get_epsg`, `None` when the file has no coordinate system or
cannot be read) and the global `importable` predicate abstracting
`osr.SpatialReference.ImportFromEPSG(...) == ogr.OGRERR_NONE`.

Line 293 of the source is `if bounds[0] == np.nan: return None`: a Python
`==` comparison against NaN, embedded here as `PFloat.pyEq`.  Line 298 is
`if default_epsg:`, Python truthiness, so a default of `0` counts as absent.
-/
def get_image_bounds_json (src : Option RasterInfo) (file_epsg : Option Nat)
    (default_epsg : Option Nat) (importable : Nat → Bool) : Option ImageGeoJson :=
  let bounds := image_get_geobounds src
  if PFloat.pyEq bounds.minY PFloat.nan then Option.none
  else
    let epsg : Option Nat :=
      match file_epsg with
      | some e => some e
      | Option.none =>
          match default_epsg with
          | some d => if d != 0 then some d else Option.none
          | Option.none => Option.none
    match epsg with
    | Option.none => Option.none
    | some e =>
        if importable e then
          some { ring := image_bounds_ring bounds, crs_type := some "EPSG",
                 crs_code := some (toString e) }
        else Option.none

end Geoimage

namespace Lasfile

/-- The native bounding box reported by `pdal info` for a LAS file
(lasfile.py line 94). -/
structure LasBBox where
  minx : ℚ
  maxx : ℚ
  miny : ℚ
  maxy : ℚ
deriving DecidableEq, Repr

/-- The closed corner ring built by `lasfile.get_las_extents` at lasfile.py
lines 103-108. -/
def las_ring (b : LasBBox) : List (ℚ × ℚ) :=
  [(b.minx, b.maxy), (b.maxx, b.maxy), (b.maxx, b.miny), (b.minx, b.miny), (b.minx, b.maxy)]

/-- Embedding of `lasfile.get_las_extents` (lasfile.py lines 76-115).  The
`pdal info` call is abstracted into the reported bounding box `bbox` and the
EPSG found in the header (`file_epsg`, the result of `get_las_epsg`).  Note
line 97 is `if default_epsg is not None` (an identity test, not truthiness,
unlike `get_image_bounds_json`).  The polygon is built by
`geometries.polygon_from_ring`, which returns `None` when the EPSG cannot be
imported, in which case this function logs an error and returns `None`. -/
def get_las_extents (bbox : LasBBox) (file_epsg : Option Nat)
    (default_epsg : Option Nat) (importable : Nat → Bool) :
    Option Geometries.QGeoJson :=
  let epsg : Option Nat :=
    match file_epsg with
    | some e => some e
    | Option.none => default_epsg
  match epsg with
  | Option.none => Option.none
  | some e =>
      match Geometries.polygon_from_ring (las_ring bbox) (some e) importable with
      | some poly => some (Geometries.geometry_to_geojson poly Option.none Option.none)
      | Option.none => Option.none

end Lasfile

/-- A Python value as returned by an algorithm's `check_continue`: `None`, an
integer (which also covers `bool`, a subtype of `int` in Python), a string,
or a tuple/list of such values.  Other objects would behave like `pynone`
in `parse_continue_result` (no `__len__`, so `len(result)` raises). -/
inductive PyVal where
  | pynone : PyVal
  | int : Int → PyVal
  | str : String → PyVal
  | tup : List PyVal → PyVal

/-- Python truthiness of a `PyVal` (`if result_code:`). -/
def PyVal.truthy : PyVal → Bool
  | PyVal.pynone => false
  | PyVal.int n => n != 0
  | PyVal.str s => s != ""
  | PyVal.tup xs => !xs.isEmpty

/-- Python `v == 0` for a `PyVal`: only integers compare equal to `0`;
`==` between other built-in types and an int is `False` and raises nothing. -/
def PyVal.eqZero : PyVal → Bool
  | PyVal.int n => n == 0
  | _ => false

/-- Python `v < 0` for a `PyVal`: defined for integers, raises `TypeError`
for `None`, strings and tuples. -/
def PyVal.ltZero : PyVal → Except String Bool
  | PyVal.int n => Except.ok (decide (n < 0))
  | _ => Except.error "TypeError: comparison not supported between instances"

namespace Entrypoint

/-- Embedding of `__internal__.parse_continue_result` (entrypoint.py lines
183-213).  An integer becomes the result code; a string yields `(None,
None)`; any other value is measured with `len(result)` - for a tuple or
list, element 0 (when present) is the code and element 1 (when present) the
message, while `None` (or any other non-sized object) raises a `TypeError`
that propagates to the caller. -/
def parse_continue_result : PyVal → Except String (Option PyVal × Option PyVal)
  | PyVal.int n => Except.ok (some (PyVal.int n), Option.none)
  | PyVal.str _ => Except.ok (Option.none, Option.none)
  | PyVal.tup xs => Except.ok (xs[0]?, xs[1]?)
  | PyVal.pynone => Except.error "TypeError: object of type NoneType has no len()"

/-- The dictionary built by `handle_check_continue` and further extended by
`perform_processing`: the optional `code`, `message` and `error` entries. -/
structure CheckResult where
  code : Option PyVal
  message : Option PyVal
  error : Option String

/-- Embedding of `__internal__.handle_check_continue` (entrypoint.py lines
215-238) in the case where the algorithm has a `check_continue` attribute
returning `check_result`.  The parsed code and message are stored in the
result dictionary only when truthy (`if result_code:` / `if
result_message:`); an exception from parsing propagates. -/
def handle_check_continue (check_result : PyVal) : Except String CheckResult :=
  match parse_continue_result check_result with
  | Except.error e => Except.error e
  | Except.ok (result_code, result_message) =>
      Except.ok
        { code := match result_code with
            | some v => if v.truthy then some v else Option.none
            | Option.none => Option.none
          message := match result_message with
            | some v => if v.truthy then some v else Option.none
            | Option.none => Option.none
          error := Option.none }

/-- Embedding of the check-continue / retrieve-files fragment of
`__internal__.perform_processing` (entrypoint.py lines 291-301), reporting
whether `environment_instance.retrieve_files` gets called.  When the
algorithm has `check_continue` (`has_check_continue = true`) its result is
processed by `handle_check_continue`; line 294 then evaluates
`'code' in result and result['code'] < 0 and 'error' not in result`
left-to-right (the `<` raises a `TypeError` for a non-integer code, which
propagates out of `perform_processing`), possibly adding an `error` entry;
line 300 calls `handle_retrieve_files` exactly when
`'error' not in result and 'code' in result and result['code'] == 0`.
Any propagated exception means `retrieve_files` is never reached. -/
def perform_processing_calls_retrieve (has_check_continue : Bool)
    (check_result : PyVal) : Bool :=
  let step : Except String Bool :=
    match (if has_check_continue then handle_check_continue check_result
           else Except.ok { code := Option.none, message := Option.none, error := Option.none }) with
    | Except.error e => Except.error e
    | Except.ok result =>
        match result.code with
        | Option.none =>
            Except.ok (result.error.isNone && false)
        | some v =>
            match v.ltZero with
            | Except.error e => Except.error e
            | Except.ok is_neg =>
                let result2 :=
                  if is_neg && result.error.isNone then
                    { result with error := some "Unknown error returned from check_continue call" }
                  else result
                Except.ok (result2.error.isNone && v.eqZero)
  match step with
  | Except.ok reached => reached
  | Except.error _ => false

end Entrypoint

namespace Geoimage

/-- Whether a command string contains the `-co COMPRESS=LZW` creation
option (checked as the characteristic `COMPRESS=LZW` substring). -/
def hasCompressOpt (cmd : String) : Bool :=
  decide ("COMPRESS=LZW".data <:+: cmd.data)

end Geoimage

/-- A concrete valid polygon with positive area, used in witnesses. -/
def unitBox : Box := { minX := 0, minY := 0, maxX := 1, maxY := 1 }

/-- A concrete valid polygon disjoint from `unitBox`, used in witnesses. -/
def farBox : Box := { minX := 10, minY := 10, maxX := 11, maxY := 11 }

/-- A concrete GDAL environment in which every library call succeeds, used in
witnesses. -/
def okEnv : GdalEnv :=
  { gdal3 := true
    createCoordTransform := fun _ _ => Except.ok 0
    applyTransform := fun _ shape => Except.ok (shape + 1)
    cloneSucceeds := true }

/-- A concrete GDAL environment in which creating a coordinate transformation
raises, used in witnesses. -/
def failEnv : GdalEnv :=
  { gdal3 := true
    createCoordTransform := fun _ _ => Except.error "unsupported transformation"
    applyTransform := fun _ shape => Except.ok shape
    cloneSucceeds := true }

/-- A concrete geometry carrying spatial reference 4326, used in witnesses. -/
def geom4326 : OgrGeometry := { sr := some { srid := 4326 }, shape := 7 }

/-- A concrete geometry carrying no spatial reference, used in witnesses. -/
def geomNoSr : OgrGeometry := { sr := Option.none, shape := 3 }

/-- The intersection of a box with itself is the box. -/
theorem Box.inter_self (b : Box) : b.Intersection b = b := by
  cases b
  simp [Box.Intersection]

/-- A box whose maxima strictly dominate its minima has positive area. -/
theorem Box.area_pos (b : Box) (hx : b.minX < b.maxX) (hy : b.minY < b.maxY) :
    0 < b.Area := by
  have h1 : 0 < b.maxX - b.minX := by linarith
  have h2 : 0 < b.maxY - b.minY := by linarith
  unfold Box.Area
  rw [max_eq_left h1.le, max_eq_left h2.le]
  exact mul_pos h1 h2

/-- C6: for every valid polygon with positive area, the overlap percentage of
the polygon with itself is 1: the self-intersection is the polygon, and the
result is its area divided by itself. -/
theorem calculate_overlap_percent_self_eq_one (b : Box)
    (hx : b.minX < b.maxX) (hy : b.minY < b.maxY) :
    Geometries.calculate_overlap_percent (GeoJsonDoc.poly b) (GeoJsonDoc.poly b) = 1 := by
  show (b.Intersection b).Area / b.Area = 1
  rw [Box.inter_self]
  exact div_self (ne_of_gt (Box.area_pos b hx hy))

/-- Witness for C6 at the concrete unit box. -/
theorem calculate_overlap_percent_self_eq_one_witness :
    unitBox.minX < unitBox.maxX ∧ unitBox.minY < unitBox.maxY ∧
    Geometries.calculate_overlap_percent (GeoJsonDoc.poly unitBox) (GeoJsonDoc.poly unitBox) = 1 :=
  ⟨by decide, by decide,
    calculate_overlap_percent_self_eq_one unitBox (by decide) (by decide)⟩

/-- C1 counterexample: `calculate_overlap_percent` does not fail with an
explicit error signal on an invalid (unparseable) polygon input; it returns
`0.0`, the very value it also returns for two perfectly valid disjoint
polygons, so the caller cannot distinguish an invalid input from a normal
no-overlap result. -/
theorem calculate_overlap_percent_invalid_counterexample :
    Geometries.calculate_overlap_percent GeoJsonDoc.invalid (GeoJsonDoc.poly unitBox) =
      Geometries.calculate_overlap_percent (GeoJsonDoc.poly farBox) (GeoJsonDoc.poly unitBox) ∧
    Geometries.calculate_overlap_percent GeoJsonDoc.invalid (GeoJsonDoc.poly unitBox) = 0 := by
  have hL : Geometries.calculate_overlap_percent GeoJsonDoc.invalid (GeoJsonDoc.poly unitBox) = 0 := rfl
  have hA : (unitBox.Intersection farBox).Area = 0 := by
    norm_num [Box.Intersection, Box.Area, unitBox, farBox, min_def, max_def]
  have hR : Geometries.calculate_overlap_percent (GeoJsonDoc.poly farBox) (GeoJsonDoc.poly unitBox) = 0 := by
    show (unitBox.Intersection farBox).Area / farBox.Area = 0
    rw [hA, zero_div]
  exact ⟨hL.trans hR.symm, hL⟩

/-- C1 amended: if either polygon input fails to parse, then
`clip_raster_intersection` raises a `RuntimeError` (an explicit error
signal), while `calculate_overlap_percent` signals nothing: it logs a
warning and returns the normal-looking value `0.0`. -/
theorem invalid_polygon_error_signals (fb pb : GeoJsonDoc)
    (hinv : CreateGeometryFromJson fb = Option.none ∨ CreateGeometryFromJson pb = Option.none) :
    (∀ (raster : BoundsTuple → Nat) (file_path out_file : String),
        Geoimage.clip_raster_intersection raster file_path fb pb out_file =
          Except.error "One or more invalid polygons specified when clipping raster") ∧
    Geometries.calculate_overlap_percent fb pb = 0 := by
  cases fb <;> cases pb <;>
    simp_all [Geoimage.clip_raster_intersection, Geometries.calculate_overlap_percent,
      CreateGeometryFromJson]

/-- Witness for the amended C1 at a concrete invalid first input. -/
theorem invalid_polygon_error_signals_witness :
    (CreateGeometryFromJson GeoJsonDoc.invalid = Option.none ∨
      CreateGeometryFromJson (GeoJsonDoc.poly unitBox) = Option.none) ∧
    Geoimage.clip_raster_intersection (fun _ => 0) "raster.tif" GeoJsonDoc.invalid
        (GeoJsonDoc.poly unitBox) "out.tif" =
      Except.error "One or more invalid polygons specified when clipping raster" ∧
    Geometries.calculate_overlap_percent GeoJsonDoc.invalid (GeoJsonDoc.poly unitBox) = 0 := by
  have h := invalid_polygon_error_signals GeoJsonDoc.invalid (GeoJsonDoc.poly unitBox)
    (Or.inl (by decide))
  exact ⟨Or.inl (by decide), h.1 (fun _ => 0) "raster.tif" "out.tif", h.2⟩

/-- C7: a clipping request whose clipped output has no non-zero pixel makes
`clip_raster` return `None` with the output file deleted, and two polygons
whose intersection is empty or has zero area make `clip_raster_intersection`
return a no-content `None` result (not an error). -/
theorem clip_empty_content_returns_none :
    (∀ (raster : BoundsTuple → Nat) (rast_path : String) (bounds : BoundsTuple)
        (out_path : Option String) (compress : Bool), raster bounds = 0 →
        (Geoimage.clip_raster raster rast_path bounds out_path compress).result = Option.none ∧
        (Geoimage.clip_raster raster rast_path bounds out_path compress).out_file_kept = false) ∧
    (∀ (raster : BoundsTuple → Nat) (file_path out_file : String) (fb pb : GeoJsonDoc)
        (fp pp : Box), CreateGeometryFromJson fb = some fp →
        CreateGeometryFromJson pb = some pp → (fp.Intersection pp).Area = 0 →
        Geoimage.clip_raster_intersection raster file_path fb pb out_file =
          Except.ok Option.none) := by
  constructor
  · intro raster rast_path bounds out_path compress h
    constructor <;> simp [Geoimage.clip_raster, h]
  · intro raster file_path out_file fb pb fp pp hf hp hA
    cases fb <;> cases pb <;>
      simp_all [Geoimage.clip_raster_intersection, CreateGeometryFromJson]

/-- Witness for C7 with an all-zero raster window and two concrete disjoint
polygons. -/
theorem clip_empty_content_returns_none_witness :
    ((fun _ => 0 : BoundsTuple → Nat) (0, 0, 0, 0) = 0 ∧
      (Geoimage.clip_raster (fun _ => 0) "raster.tif" (0, 0, 0, 0) Option.none false).result =
        Option.none ∧
      (Geoimage.clip_raster (fun _ => 0) "raster.tif" (0, 0, 0, 0) Option.none false).out_file_kept =
        false) ∧
    (CreateGeometryFromJson (GeoJsonDoc.poly unitBox) = some unitBox ∧
      CreateGeometryFromJson (GeoJsonDoc.poly farBox) = some farBox ∧
      (unitBox.Intersection farBox).Area = 0 ∧
      Geoimage.clip_raster_intersection (fun _ => 0) "raster.tif" (GeoJsonDoc.poly unitBox)
          (GeoJsonDoc.poly farBox) "out.tif" = Except.ok Option.none) := by
  have hA : (unitBox.Intersection farBox).Area = 0 := by
    norm_num [Box.Intersection, Box.Area, unitBox, farBox, min_def, max_def]
  have h1 := clip_empty_content_returns_none.1 (fun _ => 0) "raster.tif" (0, 0, 0, 0)
    Option.none false rfl
  have h2 := clip_empty_content_returns_none.2 (fun _ => 0) "raster.tif" "out.tif"
    (GeoJsonDoc.poly unitBox) (GeoJsonDoc.poly farBox) unitBox farBox rfl rfl hA
  exact ⟨⟨rfl, h1.1, h1.2⟩, rfl, rfl, hA, h2⟩

/-- Membership transfers from a contiguous chunk of a list to the list. -/
theorem mem_of_chunk {a : Char} {l1 l2 : List Char} (h : l1 <:+: l2) (ha : a ∈ l1) :
    a ∈ l2 := by
  obtain ⟨s, t, rfl⟩ := h
  simp [ha]

/-- A contiguous chunk of a list is a chunk of any right extension. -/
theorem chunk_extend {l1 l2 r : List Char} (h : l1 <:+: l2) : l1 <:+: l2 ++ r := by
  obtain ⟨s, t, rfl⟩ := h
  exact ⟨s, t ++ r, by simp⟩

/-- Character data of the `compress = false` command string, split at the
string-literal boundaries. -/
theorem clip_raster_cmd_false_data (coords rast_path out_path : String) :
    (Geoimage.clip_raster_cmd false coords rast_path out_path).data =
      "gdal_translate -co COMPRESS=LZW -projwin ".data ++
        (coords.data ++ (" \"".data ++ (rast_path.data ++
          ("\" \"".data ++ (out_path.data ++ "\"".data))))) := by
  simp [Geoimage.clip_raster_cmd, String.data_append]

/-- Character data of the `compress = true` command string, split at the
string-literal boundaries. -/
theorem clip_raster_cmd_true_data (coords rast_path out_path : String) :
    (Geoimage.clip_raster_cmd true coords rast_path out_path).data =
      "gdal_translate -projwin ".data ++
        (coords.data ++ (" \"".data ++ (rast_path.data ++
          ("\" \"".data ++ (out_path.data ++ "\"".data))))) := by
  simp [Geoimage.clip_raster_cmd, String.data_append]

/-- C10: the `compress` parameter of `clip_raster` is inverted with respect
to its name.  For inputs that do not themselves contain the character `C`
(no path interpolation coincidence), the built gdal_translate command
contains the `COMPRESS=LZW` creation option exactly when `compress` is
`false`; and `clip_raster_intersection` reaches `clip_raster` with
`compress = true`, hence an uncompressed output. -/
theorem clip_raster_compress_inverted (coords rast_path out_path : String)
    (hc : 'C' ∉ coords.data) (hr : 'C' ∉ rast_path.data) (ho : 'C' ∉ out_path.data) :
    Geoimage.hasCompressOpt (Geoimage.clip_raster_cmd false coords rast_path out_path) = true ∧
    Geoimage.hasCompressOpt (Geoimage.clip_raster_cmd true coords rast_path out_path) = false ∧
    (∀ (raster : BoundsTuple → Nat) (file_path out_file : String) (fb pb : GeoJsonDoc)
        (fp pp : Box), CreateGeometryFromJson fb = some fp →
        CreateGeometryFromJson pb = some pp → (fp.Intersection pp).Area ≠ 0 →
        Geoimage.clip_raster_intersection raster file_path fb pb out_file =
          Except.ok (Geoimage.clip_raster raster file_path
            (Geometries.geometry_to_tuples (fp.Intersection pp)) (some out_file) true).result) := by
  refine ⟨?_, ?_, ?_⟩
  · simp only [Geoimage.hasCompressOpt, decide_eq_true_eq]
    rw [clip_raster_cmd_false_data]
    exact chunk_extend (by decide)
  · simp only [Geoimage.hasCompressOpt, decide_eq_false_iff_not]
    intro h
    have hC : 'C' ∈ (Geoimage.clip_raster_cmd true coords rast_path out_path).data :=
      mem_of_chunk h (by decide)
    rw [clip_raster_cmd_true_data] at hC
    simp only [List.mem_append] at hC
    rcases hC with h1 | h1 | h1 | h1 | h1 | h1 | h1
    · exact absurd h1 (by decide)
    · exact hc h1
    · exact absurd h1 (by decide)
    · exact hr h1
    · exact absurd h1 (by decide)
    · exact ho h1
    · exact absurd h1 (by decide)
  · intro raster file_path out_file fb pb fp pp hf hp hA
    cases fb <;> cases pb <;>
      simp_all [Geoimage.clip_raster_intersection, CreateGeometryFromJson]

/-- Witness for C10 at concrete command-string pieces and concrete
overlapping polygons. -/
theorem clip_raster_compress_inverted_witness :
    ('C' ∉ "1 2 3 4".data ∧ 'C' ∉ "raster.tif".data ∧ 'C' ∉ "out.tif".data) ∧
    Geoimage.hasCompressOpt (Geoimage.clip_raster_cmd false "1 2 3 4" "raster.tif" "out.tif") =
      true ∧
    Geoimage.hasCompressOpt (Geoimage.clip_raster_cmd true "1 2 3 4" "raster.tif" "out.tif") =
      false ∧
    Geoimage.clip_raster_intersection (fun _ => 5) "raster.tif" (GeoJsonDoc.poly unitBox)
        (GeoJsonDoc.poly unitBox) "out.tif" =
      Except.ok (Geoimage.clip_raster (fun _ => 5) "raster.tif"
        (Geometries.geometry_to_tuples (unitBox.Intersection unitBox)) (some "out.tif")
        true).result := by
  have hA : (unitBox.Intersection unitBox).Area ≠ 0 := by
    norm_num [Box.Intersection, Box.Area, unitBox, min_def, max_def]
  have h := clip_raster_compress_inverted "1 2 3 4" "raster.tif" "out.tif"
    (by decide) (by decide) (by decide)
  exact ⟨⟨by decide, by decide, by decide⟩, h.1, h.2.1,
    h.2.2 (fun _ => 5) "raster.tif" "out.tif" (GeoJsonDoc.poly unitBox)
      (GeoJsonDoc.poly unitBox) unitBox unitBox rfl rfl hA⟩

/-- A `None` target spatial reference returns the geometry unchanged. -/
theorem convert_geometry_nsr_none (env : GdalEnv) (geometry : Option OgrGeometry) :
    Geometries.convert_geometry env geometry Option.none = geometry := by
  cases geometry <;> rfl

/-- A `None` geometry is returned unchanged. -/
theorem convert_geometry_geom_none (env : GdalEnv) (nsr : Option SpatialRef) :
    Geometries.convert_geometry env Option.none nsr = Option.none := by
  cases nsr <;> rfl

/-- A geometry without a spatial reference is returned unchanged (with GDAL 3
via the caught `AttributeError`, with GDAL 2 via the `if geom_sr` guard). -/
theorem convert_geometry_no_sr (env : GdalEnv) (gg : OgrGeometry)
    (nsr : Option SpatialRef) (hsr : gg.sr = Option.none) :
    Geometries.convert_geometry env (some gg) nsr = some gg := by
  cases nsr with
  | none => rfl
  | some t =>
      show (match Geometries.convert_attempt env gg t with
            | Except.ok g2 => some g2
            | Except.error _ => some gg) = some gg
      unfold Geometries.convert_attempt
      rw [hsr]
      cases env.gdal3 <;> simp

/-- A geometry whose spatial reference is the same as the target is returned
unchanged. -/
theorem convert_geometry_same_sr (env : GdalEnv) (gg : OgrGeometry)
    (t s : SpatialRef) (hsr : gg.sr = some s) (hsame : t.isSame s = true) :
    Geometries.convert_geometry env (some gg) (some t) = some gg := by
  show (match Geometries.convert_attempt env gg t with
        | Except.ok g2 => some g2
        | Except.error _ => some gg) = some gg
  unfold Geometries.convert_attempt
  rw [hsr]
  simp [hsame]

/-- C2: `convert_geometry` returns the geometry unchanged when the target
spatial reference is `None`, when the geometry is `None`, when the geometry
carries no spatial reference, or when its spatial reference is the same as
the target; and whenever the returned geometry differs from the input, the
input carried a spatial reference different from the target (a reprojection
is attempted only in that case). -/
theorem convert_geometry_unchanged_cases (env : GdalEnv)
    (geometry : Option OgrGeometry) (nsr : Option SpatialRef) :
    (nsr = Option.none → Geometries.convert_geometry env geometry nsr = geometry) ∧
    (geometry = Option.none → Geometries.convert_geometry env geometry nsr = geometry) ∧
    (∀ gg, geometry = some gg → gg.sr = Option.none →
        Geometries.convert_geometry env geometry nsr = geometry) ∧
    (∀ gg t s, geometry = some gg → nsr = some t → gg.sr = some s → t.isSame s = true →
        Geometries.convert_geometry env geometry nsr = geometry) ∧
    (Geometries.convert_geometry env geometry nsr ≠ geometry →
        ∃ gg t s, geometry = some gg ∧ nsr = some t ∧ gg.sr = some s ∧ t.isSame s = false) := by
  refine ⟨?_, ?_, ?_, ?_, ?_⟩
  · rintro rfl
    exact convert_geometry_nsr_none env geometry
  · rintro rfl
    exact convert_geometry_geom_none env nsr
  · rintro gg rfl hsr
    exact convert_geometry_no_sr env gg nsr hsr
  · rintro gg t s rfl rfl hsr hsame
    exact convert_geometry_same_sr env gg t s hsr hsame
  · intro hne
    cases nsr with
    | none => exact absurd (convert_geometry_nsr_none env geometry) hne
    | some t =>
        cases geometry with
        | none => exact absurd (convert_geometry_geom_none env (some t)) hne
        | some gg =>
            cases hsr : gg.sr with
            | none => exact absurd (convert_geometry_no_sr env gg (some t) hsr) hne
            | some s =>
                cases hsame : t.isSame s with
                | true => exact absurd (convert_geometry_same_sr env gg t s hsr hsame) hne
                | false => exact ⟨gg, t, s, rfl, rfl, hsr, hsame⟩

/-- Witness for C2: the `None`-target, no-spatial-reference and same-target
cases at concrete inputs. -/
theorem convert_geometry_unchanged_cases_witness :
    Geometries.convert_geometry okEnv (some geom4326) Option.none = some geom4326 ∧
    Geometries.convert_geometry okEnv Option.none (some { srid := 4326 }) = Option.none ∧
    Geometries.convert_geometry okEnv (some geomNoSr) (some { srid := 4326 }) = some geomNoSr ∧
    Geometries.convert_geometry okEnv (some geom4326) (some { srid := 4326 }) = some geom4326 := by
  refine ⟨?_, ?_, ?_, ?_⟩
  · exact (convert_geometry_unchanged_cases okEnv (some geom4326) Option.none).1 rfl
  · exact (convert_geometry_unchanged_cases okEnv Option.none (some { srid := 4326 })).2.1 rfl
  · exact (convert_geometry_unchanged_cases okEnv (some geomNoSr)
      (some { srid := 4326 })).2.2.1 geomNoSr rfl rfl
  · exact (convert_geometry_unchanged_cases okEnv (some geom4326)
      (some { srid := 4326 })).2.2.2.1 geom4326 { srid := 4326 } { srid := 4326 } rfl rfl rfl
      (by decide)

/-- C3: when any step of the transformation inside `convert_geometry` raises
(the `SetAxisMappingStrategy` call on a geometry without a spatial
reference, `CreateCoordinateTransformation`, or `Transform` on the clone),
the exception is caught and the original untransformed geometry is
returned; the failure is never propagated (the embedding is a total
function returning a geometry in every such case). -/
theorem convert_geometry_failure_returns_original (env : GdalEnv)
    (gg : OgrGeometry) (nsr : SpatialRef) :
    (∀ gsr, gg.sr = some gsr → nsr.isSame gsr = false →
        ((∃ e, env.createCoordTransform gsr nsr = Except.error e) ∨
          (env.cloneSucceeds = true ∧ ∃ handle e,
            env.createCoordTransform gsr nsr = Except.ok handle ∧
            env.applyTransform handle gg.shape = Except.error e)) →
        Geometries.convert_geometry env (some gg) (some nsr) = some gg) ∧
    (gg.sr = Option.none → env.gdal3 = true →
        Geometries.convert_geometry env (some gg) (some nsr) = some gg) := by
  constructor
  · intro gsr hsr hdiff hfail
    show (match Geometries.convert_attempt env gg nsr with
          | Except.ok g2 => some g2
          | Except.error _ => some gg) = some gg
    unfold Geometries.convert_attempt
    rw [hsr]
    rcases hfail with ⟨e, he⟩ | ⟨hclone, handle, e, hok, herr⟩
    · simp [hdiff, he]
    · simp [hdiff, hok, hclone, herr]
  · intro hsr hgdal
    show (match Geometries.convert_attempt env gg nsr with
          | Except.ok g2 => some g2
          | Except.error _ => some gg) = some gg
    unfold Geometries.convert_attempt
    rw [hsr]
    simp [hgdal]

/-- Witness for C3: a failing coordinate transformation and the GDAL 3
missing-spatial-reference case, at concrete inputs. -/
theorem convert_geometry_failure_returns_original_witness :
    (geom4326.sr = some { srid := 4326 } ∧
      SpatialRef.isSame { srid := 3614 } { srid := 4326 } = false ∧
      failEnv.createCoordTransform { srid := 4326 } { srid := 3614 } =
        Except.error "unsupported transformation" ∧
      Geometries.convert_geometry failEnv (some geom4326) (some { srid := 3614 }) =
        some geom4326) ∧
    (geomNoSr.sr = Option.none ∧ okEnv.gdal3 = true ∧
      Geometries.convert_geometry okEnv (some geomNoSr) (some { srid := 3614 }) =
        some geomNoSr) := by
  have h := convert_geometry_failure_returns_original failEnv geom4326 { srid := 3614 }
  have h2 := convert_geometry_failure_returns_original okEnv geomNoSr { srid := 3614 }
  refine ⟨⟨rfl, by decide, rfl, ?_⟩, rfl, rfl, ?_⟩
  · exact h.1 { srid := 4326 } rfl (by decide)
      (Or.inl ⟨"unsupported transformation", rfl⟩)
  · exact h2.2 rfl rfl

/-- C4: for a file whose bounds are readable but that has no coordinate
reference system, the boundary extractors use the caller-supplied default
EPSG to build the boundary GeoJSON, and with no default supplied they log a
warning and return `None`.  The hypotheses state that the default is an
actual EPSG code: non-zero (for `get_image_bounds_json`, which tests the
default with Python truthiness) and importable. -/
theorem boundary_extraction_default_epsg (r : RasterInfo) (bbox : Lasfile.LasBBox)
    (importable : Nat → Bool) (d : Nat) (hd : d ≠ 0) (hi : importable d = true) :
    Geoimage.get_image_bounds_json (some r) Option.none (some d) importable =
      some { ring := Geoimage.image_bounds_ring (Geoimage.image_get_geobounds (some r)),
             crs_type := some "EPSG", crs_code := some (toString d) } ∧
    Geoimage.get_image_bounds_json (some r) Option.none Option.none importable =
      Option.none ∧
    Lasfile.get_las_extents bbox Option.none (some d) importable =
      some { ring := Lasfile.las_ring bbox, crs_type := some "EPSG",
             crs_code := some (toString d) } ∧
    Lasfile.get_las_extents bbox Option.none Option.none importable = Option.none := by
  refine ⟨?_, ?_, ?_, ?_⟩
  · simp [Geoimage.get_image_bounds_json, Geoimage.image_get_geobounds, PFloat.pyEq, hd, hi]
  · simp [Geoimage.get_image_bounds_json, Geoimage.image_get_geobounds, PFloat.pyEq]
  · simp [Lasfile.get_las_extents, Geometries.polygon_from_ring, hi,
      Geometries.geometry_to_geojson]
  · simp [Lasfile.get_las_extents]

/-- Witness for C4 at a concrete raster, bounding box and default EPSG. -/
theorem boundary_extraction_default_epsg_witness :
    ((4326 : Nat) ≠ 0 ∧ (fun c => c == 4326 : Nat → Bool) 4326 = true) ∧
    Geoimage.get_image_bounds_json
        (some { ulx := 0, xres := 1, uly := 10, yres := -1, xsize := 4, ysize := 5 })
        Option.none (some 4326) (fun c => c == 4326) =
      some { ring := Geoimage.image_bounds_ring (Geoimage.image_get_geobounds
               (some { ulx := 0, xres := 1, uly := 10, yres := -1, xsize := 4, ysize := 5 })),
             crs_type := some "EPSG", crs_code := some (toString (4326 : Nat)) } ∧
    Geoimage.get_image_bounds_json
        (some { ulx := 0, xres := 1, uly := 10, yres := -1, xsize := 4, ysize := 5 })
        Option.none Option.none (fun c => c == 4326) = Option.none ∧
    Lasfile.get_las_extents { minx := 0, maxx := 2, miny := 0, maxy := 3 }
        Option.none (some 4326) (fun c => c == 4326) =
      some { ring := Lasfile.las_ring { minx := 0, maxx := 2, miny := 0, maxy := 3 },
             crs_type := some "EPSG", crs_code := some (toString (4326 : Nat)) } ∧
    Lasfile.get_las_extents { minx := 0, maxx := 2, miny := 0, maxy := 3 }
        Option.none Option.none (fun c => c == 4326) = Option.none := by
  have h := boundary_extraction_default_epsg
    { ulx := 0, xres := 1, uly := 10, yres := -1, xsize := 4, ysize := 5 }
    { minx := 0, maxx := 2, miny := 0, maxy := 3 } (fun c => c == 4326) 4326
    (by decide) (by decide)
  exact ⟨⟨by decide, by decide⟩, h.1, h.2.1, h.2.2.1, h.2.2.2⟩

/-- C5 (code bug): the sentinel check at geoimage.py line 293 is
`bounds[0] == np.nan`, which under IEEE float semantics is false even when
`bounds[0]` is NaN, so the `[nan, nan, nan, nan]` failure sentinel from
`image_get_geobounds` is never detected.  For a path that is not a readable
raster (so that `image_get_geobounds` returns the sentinel and `get_epsg`
returns `None`), supplying `default_epsg = 4326` makes
`get_image_bounds_json` return a boundary GeoJSON built from NaN corners
instead of the documented `None`. -/
theorem get_image_bounds_json_nan_guard_dead :
    PFloat.pyEq (Geoimage.image_get_geobounds Option.none).minY PFloat.nan = false ∧
    Geoimage.get_image_bounds_json Option.none Option.none (some 4326)
        (fun c => c == 4326) =
      some { ring := Geoimage.image_bounds_ring
               { minY := PFloat.nan, maxY := PFloat.nan, minX := PFloat.nan,
                 maxX := PFloat.nan },
             crs_type := some "EPSG", crs_code := some "4326" } := by
  constructor
  · rfl
  · simp only [Geoimage.get_image_bounds_json, Geoimage.image_get_geobounds, PFloat.pyEq]
    rfl

/-- C8: `polygon_from_ring` on an empty ring with no EPSG code returns an
empty polygon (the polygon containing the empty ring, not `None`); on any
ring with an EPSG code whose import does not return `OGRERR_NONE` it
returns `None` rather than raising. -/
theorem polygon_from_ring_empty_and_bad_epsg (importable : Nat → Bool) :
    Geometries.polygon_from_ring [] Option.none importable =
      some { ring := [], sr := Option.none } ∧
    (∀ (ring : List (ℚ × ℚ)) (e : Nat), importable e = false →
        Geometries.polygon_from_ring ring (some e) importable = Option.none) := by
  constructor
  · rfl
  · intro ring e h
    simp [Geometries.polygon_from_ring, h]

/-- Witness for C8 with a concrete unimportable EPSG code. -/
theorem polygon_from_ring_empty_and_bad_epsg_witness :
    Geometries.polygon_from_ring [] Option.none (fun _ => false) =
      some { ring := [], sr := Option.none } ∧
    ((fun _ => false : Nat → Bool) 999999 = false ∧
      Geometries.polygon_from_ring [((0 : ℚ), (0 : ℚ))] (some 999999) (fun _ => false) =
        Option.none) :=
  ⟨(polygon_from_ring_empty_and_bad_epsg (fun _ => false)).1,
    rfl,
    (polygon_from_ring_empty_and_bad_epsg (fun _ => false)).2 [((0 : ℚ), (0 : ℚ))] 999999 rfl⟩

/-- A truthy Python value never compares equal to the integer 0. -/
theorem PyVal.truthy_not_eqZero (v : PyVal) (h : v.truthy = true) : v.eqZero = false := by
  cases v <;> simp_all [PyVal.truthy, PyVal.eqZero]

/-- C9: the retrieve-files step of `perform_processing` is unreachable:
`handle_check_continue` stores a `code` entry only for a truthy (non-zero)
parsed result code, while `handle_retrieve_files` is invoked only when the
stored code compares equal to 0, so for every possible `check_continue`
return value (and also when the algorithm has no `check_continue` at all)
`retrieve_files` is never called. -/
theorem perform_processing_never_retrieves (has_check_continue : Bool) (v : PyVal) :
    Entrypoint.perform_processing_calls_retrieve has_check_continue v = false := by
  cases has_check_continue with
  | false => rfl
  | true =>
      cases v with
      | pynone => rfl
      | str s => rfl
      | int n =>
          by_cases h : n = 0
          · subst h
            rfl
          · simp [Entrypoint.perform_processing_calls_retrieve,
              Entrypoint.handle_check_continue, Entrypoint.parse_continue_result,
              PyVal.truthy, PyVal.ltZero, PyVal.eqZero, h]
      | tup xs =>
          cases h0 : xs[0]? with
          | none =>
              simp [Entrypoint.perform_processing_calls_retrieve,
                Entrypoint.handle_check_continue, Entrypoint.parse_continue_result, h0]
          | some v0 =>
              cases hv : v0.truthy with
              | false =>
                  simp [Entrypoint.perform_processing_calls_retrieve,
                    Entrypoint.handle_check_continue, Entrypoint.parse_continue_result,
                    h0, hv]
              | true =>
                  have heq := PyVal.truthy_not_eqZero v0 hv
                  cases v0 with
                  | int n =>
                      simp [Entrypoint.perform_processing_calls_retrieve,
                        Entrypoint.handle_check_continue, Entrypoint.parse_continue_result,
                        h0, hv, PyVal.ltZero, heq]
                  | pynone => simp [PyVal.truthy] at hv
                  | str s =>
                      simp [Entrypoint.perform_processing_calls_retrieve,
                        Entrypoint.handle_check_continue, Entrypoint.parse_continue_result,
                        h0, hv, PyVal.ltZero]
                  | tup ys =>
                      simp [Entrypoint.perform_processing_calls_retrieve,
                        Entrypoint.handle_check_continue, Entrypoint.parse_continue_result,
                        h0, hv, PyVal.ltZero]
